import Mathlib

/-!
Verification development for the ai-geo middleware core: the fingerprint
comparator (`generateProductHash`, SHA-256 over a canonical JSON
serialization), the per-tenant credit ledger (`checkBalance`,
`deductCredit`), and the orchestrator (`generateProductSchema`).

Machine integers are modelled as `Nat`/`Int` with explicit reduction
modulo 2^32 where the source's 32-bit hash arithmetic overflows.  The
database (one `credits : Int` cell per shop domain) is an association
list threaded through each operation.  The sequential `await` chain of
the orchestrator is modelled as sequential state passing that also emits
a trace of completed boundary calls, so ordering claims are statements
about the trace.
-/

namespace AiGeo

/-! ## SHA-256 over byte lists (bytes are `Nat < 256`) -/

/-- Reduce modulo 2^32; every 32-bit word of the hash state passes through
this after arithmetic. -/
def w32 (n : Nat) : Nat := n % 4294967296

/-- Right rotation of a 32-bit word by `n` places. -/
def rotr (n x : Nat) : Nat := w32 (x / 2 ^ n + x % 2 ^ n * 2 ^ (32 - n))

/-- Bitwise choose: for each bit, pick from `y` where `x` has a 1, else
from `z`. -/
def ch (x y z : Nat) : Nat := Nat.xor (Nat.land x y) (Nat.land (4294967295 - w32 x) z)

/-- Bitwise majority of three 32-bit words. -/
def maj (x y z : Nat) : Nat := Nat.xor (Nat.xor (Nat.land x y) (Nat.land x z)) (Nat.land y z)

/-- Large sigma-0 mixing function of SHA-256. -/
def bsig0 (x : Nat) : Nat := Nat.xor (Nat.xor (rotr 2 x) (rotr 13 x)) (rotr 22 x)

/-- Large sigma-1 mixing function of SHA-256. -/
def bsig1 (x : Nat) : Nat := Nat.xor (Nat.xor (rotr 6 x) (rotr 11 x)) (rotr 25 x)

/-- Small sigma-0 message-schedule function of SHA-256. -/
def ssig0 (x : Nat) : Nat := Nat.xor (Nat.xor (rotr 7 x) (rotr 18 x)) (x / 2 ^ 3)

/-- Small sigma-1 message-schedule function of SHA-256. -/
def ssig1 (x : Nat) : Nat := Nat.xor (Nat.xor (rotr 17 x) (rotr 19 x)) (x / 2 ^ 10)

/-- The 64 SHA-256 round constants. -/
def K : List Nat :=
  [1116352408, 1899447441, 3049323471, 3921009573, 961987163, 1508970993,
   2453635748, 2870763221, 3624381080, 310598401, 607225278, 1426881987,
   1925078388, 2162078206, 2614888103, 3248222580, 3835390401, 4022224774,
   264347078, 604807628, 770255983, 1249150122, 1555081692, 1996064986,
   2554220882, 2821834349, 2952996808, 3210313671, 3336571891, 3584528711,
   113926993, 338241895, 666307205, 773529912, 1294757372, 1396182291,
   1695183700, 1986661051, 2177026350, 2456956037, 2730485921, 2820302411,
   3259730800, 3345764771, 3516065817, 3600352804, 4094571909, 275423344,
   430227734, 506948616, 659060556, 883997877, 958139571, 1322822218,
   1537002063, 1747873779, 1955562222, 2024104815, 2227730452, 2361852424,
   2428436474, 2756734187, 3204031479, 3329325298]

/-- The eight-word SHA-256 working state. -/
structure Dig where
  a : Nat
  b : Nat
  c : Nat
  d : Nat
  e : Nat
  f : Nat
  g : Nat
  h : Nat

/-- Initial SHA-256 hash state. -/
def H0 : Dig :=
  ⟨1779033703, 3144134277, 1013904242, 2773480762, 1359893119, 2600822924, 528734635, 1541459225⟩

/-- A big-endian list of `k` bytes for the number `n` (low bytes truncated
off the top as SHA-256's length field requires). -/
def beBytes : Nat → Nat → List Nat
  | 0, _ => []
  | k + 1, n => beBytes k (n / 256) ++ [n % 256]

/-- SHA-256 padding: append `0x80`, zeros, then the 64-bit big-endian bit
length, reaching a multiple of 64 bytes. -/
def padBytes (msg : List Nat) : List Nat :=
  msg ++ 0x80 :: List.replicate ((64 - (msg.length + 9) % 64) % 64) 0 ++ beBytes 8 (8 * msg.length)

/-- Group bytes four at a time into big-endian 32-bit words. -/
def bytesToWords : List Nat → List Nat
  | a :: b :: c :: d :: rest => (((a * 256 + b) * 256 + c) * 256 + d) :: bytesToWords rest
  | _ => []

/-- Extend a 16-word block by `k` further message-schedule words. -/
def sched : List Nat → Nat → List Nat
  | ws, 0 => ws
  | ws, k + 1 =>
    let i := ws.length
    sched (ws ++ [w32 (ssig1 (ws.getD (i - 2) 0) + ws.getD (i - 7) 0 +
      ssig0 (ws.getD (i - 15) 0) + ws.getD (i - 16) 0)]) k

/-- One SHA-256 round per `(constant, scheduled word)` pair. -/
def rounds : List (Nat × Nat) → Dig → Dig
  | [], st => st
  | (k, w) :: rest, st =>
    let t1 := w32 (st.h + bsig1 st.e + ch st.e st.f st.g + k + w)
    let t2 := w32 (bsig0 st.a + maj st.a st.b st.c)
    rounds rest ⟨w32 (t1 + t2), st.a, st.b, st.c, w32 (st.d + t1), st.e, st.f, st.g⟩

/-- Add two hash states word-wise modulo 2^32 (the feed-forward step). -/
def addDig (x y : Dig) : Dig :=
  ⟨w32 (x.a + y.a), w32 (x.b + y.b), w32 (x.c + y.c), w32 (x.d + y.d),
   w32 (x.e + y.e), w32 (x.f + y.f), w32 (x.g + y.g), w32 (x.h + y.h)⟩

/-- Split a byte list into 64-byte chunks, with a structural fuel so the
kernel can evaluate it (fuel `l.length` always suffices). -/
def chunksAux : Nat → List Nat → List (List Nat)
  | 0, _ => []
  | _, [] => []
  | fuel + 1, a :: l => ((a :: l).take 64) :: chunksAux fuel ((a :: l).drop 64)

/-- Split a byte list into 64-byte chunks. -/
def chunks64 (l : List Nat) : List (List Nat) := chunksAux l.length l

/-- Compress one padded 64-byte block into the running state. -/
def block (st : Dig) (blk : List Nat) : Dig :=
  addDig st (rounds (K.zip (sched (bytesToWords blk) 48)) st)

/-- The eight 32-bit words of the SHA-256 digest of a byte list. -/
def sha256Words (msg : List Nat) : Dig :=
  (chunks64 (padBytes msg)).foldl block H0

/-- The sixteen lowercase hexadecimal digit characters. -/
def hexChar (d : Nat) : Char := Char.ofNat (if d < 10 then 48 + d else 87 + d)

/-- Fixed-width lowercase hex rendering of the low `4 * n` bits of `w`,
most significant digit first. -/
def toHexFixed : Nat → Nat → List Char
  | 0, _ => []
  | n + 1, w => toHexFixed n (w / 16) ++ [hexChar (w % 16)]

/-- The digest state as its eight words in output order. -/
def digList (st : Dig) : List Nat := [st.a, st.b, st.c, st.d, st.e, st.f, st.g, st.h]

/-- SHA-256 digest of a byte list as a 64-character lowercase hex string,
as node's `createHash('sha256').update(s).digest('hex')` produces. -/
def sha256Hex (msg : List Nat) : String :=
  ⟨(digList (sha256Words msg)).flatMap (toHexFixed 8)⟩

/-! ## UTF-8 and the canonical JSON serialization of the hasher -/

/-- UTF-8 encoding of one character as bytes, matching node's utf8
conversion of a JS string before hashing. -/
def utf8Bytes (c : Char) : List Nat :=
  let n := c.toNat
  if n < 0x80 then [n]
  else if n < 0x800 then [0xC0 + n / 64, 0x80 + n % 64]
  else if n < 0x10000 then [0xE0 + n / 4096, 0x80 + n / 64 % 64, 0x80 + n % 64]
  else [0xF0 + n / 262144, 0x80 + n / 4096 % 64, 0x80 + n / 64 % 64, 0x80 + n % 64]

/-- UTF-8 bytes of a string. -/
def strBytes (s : String) : List Nat := s.data.flatMap utf8Bytes

/-- JSON escaping of one character exactly as `JSON.stringify` emits it:
quote and backslash escaped, the five short control escapes, `\u00xx`
for the remaining control characters, everything else literal. -/
def jsonEscapeChar (c : Char) : List Char :=
  if c = '"' then ['\\', '"']
  else if c = '\\' then ['\\', '\\']
  else if c.toNat = 8 then ['\\', 'b']
  else if c.toNat = 9 then ['\\', 't']
  else if c.toNat = 10 then ['\\', 'n']
  else if c.toNat = 12 then ['\\', 'f']
  else if c.toNat = 13 then ['\\', 'r']
  else if c.toNat < 32 then ['\\', 'u', '0', '0', hexChar (c.toNat / 16), hexChar (c.toNat % 16)]
  else [c]

/-- JSON escaping of a character list. -/
def jsonEscape (s : List Char) : List Char := s.flatMap jsonEscapeChar

/-- Literal opening of the canonical object up to the start of the
`description` value: `{"description":"`. -/
def pre1 : List Char := "\x7b\"description\":\"".data

/-- Literal text between the `description` value's closing quote and the
`title` value: `,"title":"`. -/
def mid1 : List Char := ",\"title\":\"".data

/-- Literal text between the `title` value's closing quote and the
`vendor` value: `,"vendor":"`. -/
def mid2 : List Char := ",\"vendor\":\"".data

/-- The characters of
`JSON.stringify(\x7bdescription: d, title: t, vendor: v\x7d)`:
exactly the three fields, in the fixed key order description, title,
vendor, with each value JSON-escaped. -/
def canonChars (d t v : List Char) : List Char :=
  pre1 ++ jsonEscape d ++ '"' :: (mid1 ++ jsonEscape t ++ '"' :: (mid2 ++ jsonEscape v ++ '"' :: ['\x7d']))

/-- A product as the orchestrator receives it (`ProductInput` in the
source): the three fingerprinted fields plus the optional `price` and
`sku` fields that the hasher never reads. -/
structure ProductInput where
  title : String
  description : String
  vendor : String
  price : Option String
  sku : Option String

/-- The canonical serialization the hasher feeds to SHA-256: the source
builds `JSON.stringify` of an object literal holding exactly
`description`, `title`, `vendor` in that insertion order. -/
def canonicalString (p : ProductInput) : String :=
  ⟨canonChars p.description.data p.title.data p.vendor.data⟩

/-- The hashing engine (`generateProductHash` in `hasher.ts`): SHA-256 of
the canonical serialization, as a lowercase hex string.  TypeScript's
structural typing lets the full product object flow in; only the three
declared fields are read. -/
def generateProductHash (p : ProductInput) : String :=
  sha256Hex (strBytes (canonicalString p))

/-! ## The credit ledger (`credit.server.ts`)

The `Shop` table keeps one row per domain with an integer `credits`
column, default 10.  The relevant part of the database is an association
list from domain to credits; prisma's `decrement`/`increment` are atomic
relative updates on that cell, so sequentially they are exactly the
in-place update below. -/

/-- The shop table: one `(domain, credits)` row per tenant. -/
abbrev Ledger := List (String × Int)

/-- Balance of a domain, `none` when the row is absent
(`prisma.shop.findUnique`). -/
def lookupShop : Ledger → String → Option Int
  | [], _ => none
  | (k, v) :: rest, d => if k = d then some v else lookupShop rest d

/-- Overwrite the credits of an existing row, leaving everything else
unchanged (`prisma.shop.update` on the `credits` cell). -/
def updateShop : Ledger → String → Int → Ledger
  | [], _, _ => []
  | (k, v) :: rest, d, n => if k = d then (k, n) :: rest else (k, v) :: updateShop rest d n

/-- Result record of `checkBalance`. -/
structure CheckBalanceResult where
  hasCredits : Bool
  balance : Int

/-- Result record of `deductCredit` (and `addCredits`). -/
structure DeductCreditResult where
  success : Bool
  newBalance : Int

/-- The default credits a freshly created shop row receives
(`"credits" INTEGER NOT NULL DEFAULT 10` in the migration). -/
def defaultCredits : Int := 10

/-- The `checkBalance` operation: read the row; if absent, create it with
the default credits and report from the new row; `hasCredits` is
`credits > 0` in both branches. -/
def checkBalance (st : Ledger) (shopId : String) : CheckBalanceResult × Ledger :=
  match lookupShop st shopId with
  | none =>
    ({ hasCredits := decide (0 < defaultCredits), balance := defaultCredits },
      st ++ [(shopId, defaultCredits)])
  | some c => ({ hasCredits := decide (0 < c), balance := c }, st)

/-- The `deductCredit` operation: `prisma.shop.update` with an atomic
`decrement` of `amount` on the row, returning the updated credits.  The
surrounding `try`/`catch` turns a missing row, or any other storage
error (`storageFault`), into `success := false, newBalance := 0` with no
write.  No bound on the amount or the resulting balance is checked
anywhere. -/
def deductCredit (storageFault : Bool) (st : Ledger) (shopId : String) (amount : Int) :
    DeductCreditResult × Ledger :=
  if storageFault then ({ success := false, newBalance := 0 }, st)
  else
    match lookupShop st shopId with
    | none => ({ success := false, newBalance := 0 }, st)
    | some c =>
      ({ success := true, newBalance := c - amount }, updateShop st shopId (c - amount))

/-! ## The generation adapter seam and the orchestrator (`ai.server.ts`) -/

/-- The optional `offers` block of the JSON-LD product schema. -/
structure Offers where
  atType : String
  price : Option String
  priceCurrency : Option String
  availability : Option String
deriving DecidableEq

/-- A candidate JSON-LD product object as the generation adapter may
return it, before zod validation of the literal fields. -/
structure RawSchema where
  atContext : String
  atType : String
  name : String
  description : String
  brandType : String
  brandName : String
  sku : Option String
  category : Option String
  material : Option String
  color : Option String
  offers : Option Offers
deriving DecidableEq

/-- The zod literal checks of `ProductSchemaZod`: `@context`, `@type` and
the brand's and offer's `@type` must be the fixed strings. -/
def validSchema (r : RawSchema) : Bool :=
  r.atContext = "https://schema.org" && r.atType = "Product" && r.brandType = "Brand" &&
    (match r.offers with
     | some o => o.atType = "Offer"
     | none => true)

/-- The `generateObject` call of the ai library: the upstream model either
fails outright (left as the error string) or produces an object, which
the library accepts only if it validates against the zod schema,
throwing a no-object error otherwise. -/
def generateObjectM (upstream : Except String RawSchema) : Except String RawSchema :=
  match upstream with
  | .error e => .error e
  | .ok raw => if validSchema raw then .ok raw else .error "AI_NoObjectGeneratedError: response did not match schema"

/-- Input record of the orchestrator. -/
structure GenerateSchemaInput where
  shopId : String
  product : ProductInput
  brandVoice : String

/-- Result record of the orchestrator on success. -/
structure GenerateSchemaResult where
  schema : RawSchema
  creditsRemaining : Int
deriving DecidableEq

/-- One completed boundary call of the orchestrator, in completion
order: a balance check, a generation-adapter return (successful or
not), or a credit debit. -/
inductive Event where
  | checkBalanceDone : String → Bool → Int → Event
  | generateDone : Bool → Event
  | deductDone : String → Int → Bool → Int → Event
deriving DecidableEq

/-- The exact message of the quota-exhausted error the orchestrator
throws. -/
def quotaMsg : String :=
  "402 Payment Required: No credits available. Please purchase more credits."

/-- Outcome of one orchestrator run: the returned value or thrown error,
the ledger afterwards, and the trace of completed boundary calls. -/
structure OrchOutcome where
  result : Except String GenerateSchemaResult
  ledger : Ledger
  trace : List Event

/-- The orchestrator `generateProductSchema`: await `checkBalance`; throw
the 402 error if `hasCredits` is false; await `generateObject` (modelled
by the `upstream` oracle), letting any failure propagate; then await
`deductCredit(shopId, 1)` and return the schema together with the
reported `newBalance` — the `success` flag of the debit is never
inspected.  The sequential `await` chain is sequential state passing;
each completed call is appended to the trace. -/
def generateProductSchema (upstream : Except String RawSchema) (storageFault : Bool)
    (st : Ledger) (input : GenerateSchemaInput) : OrchOutcome :=
  let (balance, st1) := checkBalance st input.shopId
  let ev1 := [Event.checkBalanceDone input.shopId balance.hasCredits balance.balance]
  if balance.hasCredits = false then
    { result := .error quotaMsg, ledger := st1, trace := ev1 }
  else
    match generateObjectM upstream with
    | .error e =>
      { result := .error e, ledger := st1, trace := ev1 ++ [Event.generateDone false] }
    | .ok schema =>
      let (dres, st2) := deductCredit storageFault st1 input.shopId 1
      { result := .ok { schema := schema, creditsRemaining := dres.newBalance },
        ledger := st2,
        trace := ev1 ++ [Event.generateDone true,
          Event.deductDone input.shopId 1 dres.success dres.newBalance] }

/-! ## The catalog-scan change-detection gate -/

/-- One `ProductState` row: the stored fingerprint, the stored artifact,
and the sync flag. -/
structure ProductRecord where
  contentFingerprint : Option String
  artifact : Option RawSchema
  isSynced : Bool

/-- The fingerprint of an orchestrator product input, as the scan wrapper
obtains it by passing the product object to the hashing engine. -/
def fingerprintOfInput (p : ProductInput) : String := generateProductHash p

/-- Modelled from the spec: the catalog-scan wrapper ("Stale Data Guard")
that gates the orchestrator is described in the PRD, ARCHITECTURE.md and
the spec's section 4.4 but is not present under `src/` (only the hashing
engine, the `ProductState` table and the orchestrator it would call
are).  Per the spec: recompute the fingerprint; an equal stored digest
short-circuits with the cached artifact and zero ledger or adapter
calls; otherwise run steps 1-4 and persist fingerprint, artifact and
`isSynced := false`. -/
def processProduct (upstream : Except String RawSchema) (storageFault : Bool)
    (record : Option ProductRecord) (st : Ledger) (input : GenerateSchemaInput) :
    Except String RawSchema × Ledger × List Event × Option ProductRecord :=
  let fp := fingerprintOfInput input.product
  let fresh :=
    let o := generateProductSchema upstream storageFault st input
    match o.result with
    | .ok res =>
      (.ok res.schema, o.ledger, o.trace,
        some { contentFingerprint := some fp, artifact := some res.schema, isSynced := false })
    | .error e => (.error e, o.ledger, o.trace, record)
  match record with
  | some r =>
    match r.artifact with
    | some a => if r.contentFingerprint = some fp then (.ok a, st, [], some r) else fresh
    | none => fresh
  | none => fresh

/-! ## A left inverse of the canonical serialization

`scanStr` undoes `jsonEscape` up to an unescaped closing quote, and
`decodeCanon` recovers the three field values from a canonical object.
They exist to prove the serialization injective: a change to any of the
three fields changes the canonical string. -/

/-- Value of a lowercase hex digit character. -/
def unhex (c : Char) : Nat := if c.toNat ≤ 57 then c.toNat - 48 else c.toNat - 87

/-- Inverse of the short JSON escapes (`\b`, `\t`, `\n`, `\f`, `\r`; quote
and backslash are themselves). -/
def unescChar (c : Char) : Char :=
  if c = 'b' then Char.ofNat 8
  else if c = 't' then Char.ofNat 9
  else if c = 'n' then Char.ofNat 10
  else if c = 'f' then Char.ofNat 12
  else if c = 'r' then Char.ofNat 13
  else c

/-- Scan an escaped JSON string up to its unescaped closing quote,
returning the unescaped content and the remainder after the quote; the
structural fuel lets the scanner evaluate (the list's length always
suffices, each step consuming at least one character). -/
def scanStrF : Nat → List Char → Option (List Char × List Char)
  | 0, _ => none
  | _, [] => none
  | fuel + 1, c :: rest =>
    if c = '"' then some ([], rest)
    else if c = '\\' then
      match rest with
      | [] => none
      | e :: rest1 =>
        if e = 'u' then
          match rest1 with
          | _ :: _ :: hh :: ll :: rest2 =>
            (scanStrF fuel rest2).map fun p => (Char.ofNat (16 * unhex hh + unhex ll) :: p.1, p.2)
          | _ => none
        else
          (scanStrF fuel rest1).map fun p => (unescChar e :: p.1, p.2)
    else
      (scanStrF fuel rest).map fun p => (c :: p.1, p.2)

/-- Scan an escaped JSON string with enough fuel for any input. -/
def scanStr (l : List Char) : Option (List Char × List Char) := scanStrF l.length l

/-- Recover `(description, title, vendor)` from a canonical object's
characters. -/
def decodeCanon (l : List Char) : Option (List Char × List Char × List Char) :=
  (scanStr (l.drop pre1.length)).bind fun p1 =>
    (scanStr (p1.2.drop mid1.length)).bind fun p2 =>
      (scanStr (p2.2.drop mid2.length)).map fun p3 => (p1.1, p2.1, p3.1)

/-- The sixteen characters a lowercase hex digest may contain. -/
def hexDigits : List Char := "0123456789abcdef".data

/-! ## Concrete sample values for witnesses -/

/-- A sample product. -/
def prod1 : ProductInput := ⟨"T", "D", "V", none, none⟩

/-- The sample product with only the excluded `price` and `sku` fields
changed. -/
def prod1Priced : ProductInput := ⟨"T", "D", "V", some "9.99", some "SKU-1"⟩

/-- A schema-valid generation result. -/
def rawOk : RawSchema :=
  { atContext := "https://schema.org", atType := "Product", name := "Wallet",
    description := "Leather wallet", brandType := "Brand", brandName := "Artisan",
    sku := none, category := none, material := none, color := none, offers := none }

/-- A sample orchestrator input against shop `s1`. -/
def input1 : GenerateSchemaInput := { shopId := "s1", product := prod1, brandVoice := "bv" }

/-- A sample orchestrator input against shop `s0`. -/
def input0 : GenerateSchemaInput := { shopId := "s0", product := prod1, brandVoice := "bv" }

/-- A `ProductState` row caching an artifact for `prod1` under its
current fingerprint. -/
def cachedRec : ProductRecord :=
  { contentFingerprint := some (fingerprintOfInput prod1), artifact := some rawOk, isSynced := true }

/-- A product with empty fingerprinted fields (the hasher accepts them
like any other strings). -/
def emptyProd : ProductInput := ⟨"", "", "", none, none⟩

/-- The empty-fields product with price and sku set. -/
def emptyProdPriced : ProductInput := ⟨"", "", "", some "9.99", some "SKU-1"⟩

/-- A small product for the sensitivity checks. -/
def prodS : ProductInput := ⟨"ab", "cd", "ef", none, none⟩

/-- `prodS` with one character of the title changed. -/
def prodST : ProductInput := ⟨"zb", "cd", "ef", none, none⟩

/-- `prodS` with one character of the description changed. -/
def prodSD : ProductInput := ⟨"ab", "zd", "ef", none, none⟩

/-- `prodS` with one character of the vendor changed. -/
def prodSV : ProductInput := ⟨"ab", "cd", "zf", none, none⟩

/-! ## Helper lemmas -/

set_option maxRecDepth 10000

/-- Updating the credits cell of an existing row makes a later read of
the same domain see the new value. -/
theorem lookupShop_updateShop_self (st : Ledger) (d : String) (n b : Int)
    (h : lookupShop st d = some b) : lookupShop (updateShop st d n) d = some n := by
  induction st with
  | nil => simp [lookupShop] at h
  | cons kv rest ih =>
    obtain ⟨k, v⟩ := kv
    by_cases hk : k = d
    · subst hk; simp [lookupShop, updateShop]
    · simp only [lookupShop, updateShop, hk, if_false] at h ⊢
      exact ih h

/-- A successful `generateObject` return passed zod validation. -/
theorem validSchema_of_generateObjectM (up : Except String RawSchema) (r : RawSchema)
    (h : generateObjectM up = .ok r) : validSchema r = true := by
  cases up with
  | error e => simp [generateObjectM] at h
  | ok raw =>
    by_cases hv : validSchema raw
    · simp [generateObjectM, hv] at h
      subst h; exact hv
    · simp [generateObjectM, hv] at h

/-! ## C9: checkBalance provisions absent tenants and reports `balance > 0` -/

/-- C9: if the tenant row is absent, `checkBalance` creates it with the
default starting balance 10 and reports from that new balance; in every
case the returned `hasCredits` equals `balance > 0`. -/
theorem checkBalance_provisions_and_reports (st : Ledger) (d : String) :
    (lookupShop st d = none →
      checkBalance st d = ({ hasCredits := true, balance := 10 }, st ++ [(d, 10)])) ∧
    (checkBalance st d).1.hasCredits = decide (0 < (checkBalance st d).1.balance) := by
  constructor
  · intro h
    simp [checkBalance, h, defaultCredits]
  · cases hl : lookupShop st d <;> simp [checkBalance, hl, defaultCredits]

/-- Witness for C9 at the empty table: the shop is created with 10
credits and reported as having credits. -/
theorem checkBalance_provisions_witness :
    checkBalance [] "shop1.myshopify.com" =
      ({ hasCredits := true, balance := 10 }, [("shop1.myshopify.com", 10)]) :=
  (checkBalance_provisions_and_reports [] "shop1.myshopify.com").1 rfl

/-! ## C1: the claimed overdraw guard does not exist -/

/-- C1 counterexample: deducting 1 from a stored balance of 0 succeeds
and stores −1 — the claimed `success=false`-and-unchanged behaviour for
an amount exceeding the balance is false at this input. -/
theorem deductCredit_overdraw_cex :
    (deductCredit false [("s1", 0)] "s1" 1).1.success = true ∧
    (deductCredit false [("s1", 0)] "s1" 1).1.newBalance = -1 ∧
    lookupShop (deductCredit false [("s1", 0)] "s1" 1).2 "s1" = some (-1) := by
  decide

/-- C1 amended: `deductCredit` applies an unconditional atomic decrement:
for an existing tenant it returns `success = true` with
`newBalance = balance − amount` even when the amount exceeds the
balance, storing the negative balance; `success = false` arises only
when the row is absent or the storage update fails, leaving the ledger
unchanged. -/
theorem deductCredit_unconditional (st : Ledger) (d : String) (amount : Int) :
    (∀ b, lookupShop st d = some b →
      deductCredit false st d amount =
        ({ success := true, newBalance := b - amount }, updateShop st d (b - amount)) ∧
      lookupShop (deductCredit false st d amount).2 d = some (b - amount) ∧
      (b < amount → b - amount < 0)) ∧
    (lookupShop st d = none →
      deductCredit false st d amount = ({ success := false, newBalance := 0 }, st)) ∧
    deductCredit true st d amount = ({ success := false, newBalance := 0 }, st) := by
  refine ⟨fun b hb => ⟨by simp [deductCredit, hb], ?_, fun hlt => by omega⟩, fun hn => ?_, ?_⟩
  · simp only [deductCredit, hb, if_false, Bool.false_eq_true]
    exact lookupShop_updateShop_self st d (b - amount) b hb
  · simp [deductCredit, hn]
  · simp [deductCredit]

/-- Witness for the amended C1 at a concrete overdraw: balance 0, deduct
1 gives success with stored balance −1. -/
theorem deductCredit_unconditional_witness :
    deductCredit false [("s1", 0)] "s1" 1 = ({ success := true, newBalance := -1 }, [("s1", -1)]) ∧
    lookupShop (deductCredit false [("s1", 0)] "s1" 1).2 "s1" = some (-1) ∧
    ((0 : Int) < 1 → (0 : Int) - 1 < 0) :=
  (deductCredit_unconditional [("s1", 0)] "s1" 1).1 0 rfl

/-! ## C10: deductCredit validates nothing about its amount -/

/-- C10: for every existing tenant and every integer amount, including
zero and negative values, `deductCredit` returns `success = true` with
`newBalance` equal to the previous balance minus the amount; a negative
amount strictly increases the stored balance. -/
theorem deductCredit_no_amount_validation (st : Ledger) (d : String) (amount b : Int)
    (h : lookupShop st d = some b) :
    (deductCredit false st d amount).1.success = true ∧
    (deductCredit false st d amount).1.newBalance = b - amount ∧
    lookupShop (deductCredit false st d amount).2 d = some (b - amount) ∧
    (amount < 0 → b < b - amount) := by
  have hu := (deductCredit_unconditional st d amount).1 b h
  refine ⟨by rw [hu.1], by rw [hu.1], hu.2.1, fun hneg => by omega⟩

/-- Witness for C10: deducting −3 from a balance of 5 "succeeds" and
raises the stored balance to 8. -/
theorem deductCredit_no_amount_validation_witness :
    (deductCredit false [("s1", 5)] "s1" (-3)).1.success = true ∧
    (deductCredit false [("s1", 5)] "s1" (-3)).1.newBalance = 8 ∧
    lookupShop (deductCredit false [("s1", 5)] "s1" (-3)).2 "s1" = some 8 ∧
    ((-3 : Int) < 0 → (5 : Int) < 8) :=
  deductCredit_no_amount_validation [("s1", 5)] "s1" (-3) 5 rfl

/-! ## C2: call ordering inside the orchestrator -/

/-- C2: in every orchestrator run, any generation-adapter completion in
the trace is preceded by a completed balance check for the input's shop,
and any debit completion is preceded by a successful adapter completion
and can only occur when the adapter returned a schema-valid object.
The source's `await` chain is sequential, so the trace is linear and
there is no parallelism. -/
theorem generateProductSchema_ordering (up : Except String RawSchema) (fault : Bool)
    (st : Ledger) (input : GenerateSchemaInput) :
    (∀ (j : Nat) (ok : Bool),
      (generateProductSchema up fault st input).trace[j]? = some (Event.generateDone ok) →
      ∃ i : Nat, i < j ∧ ∃ hc b, (generateProductSchema up fault st input).trace[i]? =
        some (Event.checkBalanceDone input.shopId hc b)) ∧
    (∀ (k : Nat) (s : String) (a : Int) (su : Bool) (nb : Int),
      (generateProductSchema up fault st input).trace[k]? =
        some (Event.deductDone s a su nb) →
      (∃ j : Nat, j < k ∧ (generateProductSchema up fault st input).trace[j]? =
        some (Event.generateDone true)) ∧
      ∃ r, generateObjectM up = Except.ok r ∧ validSchema r = true) := by
  unfold generateProductSchema
  rcases hcb : checkBalance st input.shopId with ⟨res, st1⟩
  by_cases hc : res.hasCredits = false
  · simp only [hc, if_true]
    constructor
    · intro j ok hj
      rcases j with _ | j <;> simp at hj
    · intro k s a su nb hk
      rcases k with _ | k <;> simp at hk
  · simp only [hc, if_false]
    rcases hgen : generateObjectM up with e | r
    · constructor
      · intro j ok hj
        rcases j with _ | _ | j
        · simp at hj
        · exact ⟨0, by omega, true, res.balance, by simp⟩
        · simp at hj
      · intro k s a su nb hk
        rcases k with _ | _ | k <;> simp at hk
    · rcases hd : deductCredit fault st1 input.shopId 1 with ⟨dres, st2⟩
      constructor
      · intro j ok hj
        rcases j with _ | _ | _ | j
        · simp at hj
        · exact ⟨0, by omega, true, res.balance, by simp⟩
        · simp at hj
        · simp at hj
      · intro k s a su nb hk
        rcases k with _ | _ | _ | k
        · simp at hk
        · simp at hk
        · exact ⟨⟨1, by omega, by simp⟩, r, rfl, validSchema_of_generateObjectM up r hgen⟩
        · simp at hk

/-- Witness for C2 on a concrete successful run: the debit completion at
position 2 is preceded by the successful adapter completion at position
1, and the adapter's object is schema-valid. -/
theorem generateProductSchema_ordering_witness :
    (∃ j : Nat, j < 2 ∧
      (generateProductSchema (Except.ok rawOk) false [("s1", 5)] input1).trace[j]? =
        some (Event.generateDone true)) ∧
    ∃ r, generateObjectM (Except.ok rawOk) = Except.ok r ∧ validSchema r = true :=
  (generateProductSchema_ordering (Except.ok rawOk) false [("s1", 5)] input1).2
    2 "s1" 1 true 4 (by decide)

/-! ## C3: adapter failure propagates and the ledger is untouched -/

/-- C3: when the generation adapter fails (upstream error or zod
rejection), the orchestrator re-throws that very failure, the debit is
never executed, and the whole ledger — in particular the tenant's
balance — is exactly what it was before the attempt. -/
theorem generateProductSchema_no_debit_on_failure (up : Except String RawSchema) (fault : Bool)
    (st : Ledger) (input : GenerateSchemaInput) (e : String) (b : Int)
    (hex : lookupShop st input.shopId = some b) (hpos : 0 < b)
    (hfail : generateObjectM up = Except.error e) :
    (generateProductSchema up fault st input).result = Except.error e ∧
    (generateProductSchema up fault st input).ledger = st ∧
    lookupShop (generateProductSchema up fault st input).ledger input.shopId = some b ∧
    ∀ s a su nb, Event.deductDone s a su nb ∉ (generateProductSchema up fault st input).trace := by
  have hcb : checkBalance st input.shopId = ({ hasCredits := decide (0 < b), balance := b }, st) := by
    simp [checkBalance, hex]
  have hct : decide (0 < b) = true := decide_eq_true hpos
  unfold generateProductSchema
  rw [hcb]
  simp [hct, hfail, hex]

/-- Witness for C3: with a 5-credit shop and an upstream error, that
error is returned, the ledger is unchanged, and no debit event exists. -/
theorem generateProductSchema_no_debit_on_failure_witness :
    (generateProductSchema (Except.error "OpenAI API error") false [("s1", 5)] input1).result =
      Except.error "OpenAI API error" ∧
    (generateProductSchema (Except.error "OpenAI API error") false [("s1", 5)] input1).ledger =
      [("s1", 5)] ∧
    lookupShop (generateProductSchema (Except.error "OpenAI API error") false
      [("s1", 5)] input1).ledger input1.shopId = some 5 ∧
    ∀ s a su nb, Event.deductDone s a su nb ∉
      (generateProductSchema (Except.error "OpenAI API error") false [("s1", 5)] input1).trace :=
  generateProductSchema_no_debit_on_failure (Except.error "OpenAI API error") false
    [("s1", 5)] input1 "OpenAI API error" 5 rfl (by decide) rfl

/-! ## C4: quota exhaustion fails fast with the 402 error -/

/-- C4: when the admission check reports no credits (an existing row
with balance at most 0 — an absent row is provisioned with 10 and
passes), the orchestrator throws exactly the distinguished 402 error,
the ledger is unchanged, and the trace shows the balance check only: the
generation adapter and the debit are never invoked. -/
theorem generateProductSchema_quota_exhausted (up : Except String RawSchema) (fault : Bool)
    (st : Ledger) (input : GenerateSchemaInput) (c : Int)
    (hex : lookupShop st input.shopId = some c) (hle : c ≤ 0) :
    (generateProductSchema up fault st input).result = Except.error quotaMsg ∧
    quotaMsg = "402 Payment Required: No credits available. Please purchase more credits." ∧
    (generateProductSchema up fault st input).ledger = st ∧
    (generateProductSchema up fault st input).trace =
      [Event.checkBalanceDone input.shopId false c] ∧
    (∀ ok, Event.generateDone ok ∉ (generateProductSchema up fault st input).trace) ∧
    ∀ s a su nb, Event.deductDone s a su nb ∉ (generateProductSchema up fault st input).trace := by
  have hcb : checkBalance st input.shopId = ({ hasCredits := decide (0 < c), balance := c }, st) := by
    simp [checkBalance, hex]
  have hcf : decide (0 < c) = false := decide_eq_false (by omega)
  unfold generateProductSchema
  rw [hcb]
  simp [hcf, quotaMsg]

/-- Witness for C4: a zero-balance shop gets the 402 error, nothing else
happens. -/
theorem generateProductSchema_quota_exhausted_witness :
    (generateProductSchema (Except.ok rawOk) false [("s0", 0)] input0).result =
      Except.error quotaMsg ∧
    quotaMsg = "402 Payment Required: No credits available. Please purchase more credits." ∧
    (generateProductSchema (Except.ok rawOk) false [("s0", 0)] input0).ledger = [("s0", 0)] ∧
    (generateProductSchema (Except.ok rawOk) false [("s0", 0)] input0).trace =
      [Event.checkBalanceDone input0.shopId false 0] ∧
    (∀ ok, Event.generateDone ok ∉
      (generateProductSchema (Except.ok rawOk) false [("s0", 0)] input0).trace) ∧
    ∀ s a su nb, Event.deductDone s a su nb ∉
      (generateProductSchema (Except.ok rawOk) false [("s0", 0)] input0).trace :=
  generateProductSchema_quota_exhausted (Except.ok rawOk) false [("s0", 0)] input0 0 rfl
    (by decide)

/-! ## C5: fingerprint match short-circuits with zero boundary calls -/

/-- C5 (spec-modelled gate): when the stored fingerprint of the product's
record equals the freshly computed fingerprint and an artifact is
cached, processing returns that artifact unchanged, the ledger is
untouched, the trace is empty — zero ledger and zero adapter calls —
and the record is unchanged. -/
theorem processProduct_cache_short_circuit (up : Except String RawSchema) (fault : Bool)
    (r : ProductRecord) (st : Ledger) (input : GenerateSchemaInput) (a : RawSchema)
    (hart : r.artifact = some a)
    (hfp : r.contentFingerprint = some (fingerprintOfInput input.product)) :
    processProduct up fault (some r) st input = (Except.ok a, st, [], some r) := by
  unfold processProduct
  simp [hart, hfp]

/-- Witness for C5: a record caching `rawOk` under `prod1`'s current
fingerprint is returned as-is with no events. -/
theorem processProduct_cache_short_circuit_witness :
    processProduct (Except.ok rawOk) false (some cachedRec) [("s1", 3)] input1 =
      (Except.ok rawOk, [("s1", 3)], [], some cachedRec) :=
  processProduct_cache_short_circuit (Except.ok rawOk) false cachedRec [("s1", 3)] input1
    rawOk rfl rfl

/-! ## C6: a failed debit is not surfaced -/

/-- C6 counterexample: with a storage fault at debit time the debit
reports failure, yet the orchestrator returns an ordinary success
result carrying the failed call's `newBalance` of 0 — it does not
surface any ledger-integrity fault. This proves the claim false at this
input. -/
theorem generateProductSchema_swallows_debit_failure_cex :
    (deductCredit true [("s1", 5)] "s1" 1).1.success = false ∧
    (generateProductSchema (Except.ok rawOk) true [("s1", 5)] input1).result =
      Except.ok { schema := rawOk, creditsRemaining := 0 } ∧
    (generateProductSchema (Except.ok rawOk) true [("s1", 5)] input1).trace =
      [Event.checkBalanceDone "s1" true 5, Event.generateDone true,
        Event.deductDone "s1" 1 false 0] := by
  refine ⟨rfl, rfl, rfl⟩

/-- C6 amended: when `deductCredit` reports failure after a successful,
schema-valid generation, the orchestrator ignores the `success` flag and
returns an ordinary success result whose `creditsRemaining` is the
failed call's `newBalance` (0); no distinguished fault reaches the
caller. -/
theorem generateProductSchema_ignores_debit_failure (up : Except String RawSchema) (fault : Bool)
    (st : Ledger) (input : GenerateSchemaInput) (raw : RawSchema) (b : Int)
    (hex : lookupShop st input.shopId = some b) (hpos : 0 < b)
    (hok : generateObjectM up = Except.ok raw) :
    (generateProductSchema up fault st input).result =
      Except.ok { schema := raw,
                  creditsRemaining := (deductCredit fault st input.shopId 1).1.newBalance } ∧
    (fault = true →
      (deductCredit fault st input.shopId 1).1.success = false ∧
      (generateProductSchema up fault st input).result =
        Except.ok { schema := raw, creditsRemaining := 0 }) := by
  have hcb : checkBalance st input.shopId = ({ hasCredits := decide (0 < b), balance := b }, st) := by
    simp [checkBalance, hex]
  have hct : decide (0 < b) = true := decide_eq_true hpos
  constructor
  · unfold generateProductSchema
    rw [hcb]
    simp [hct, hok]
  · intro hf
    subst hf
    refine ⟨by simp [deductCredit], ?_⟩
    unfold generateProductSchema
    rw [hcb]
    simp [hct, hok, deductCredit]

/-- Witness for the amended C6: concrete storage fault, ordinary success
with `creditsRemaining = 0` comes back. -/
theorem generateProductSchema_ignores_debit_failure_witness :
    (generateProductSchema (Except.ok rawOk) true [("s1", 5)] input1).result =
      Except.ok { schema := rawOk,
                  creditsRemaining := (deductCredit true [("s1", 5)] "s1" 1).1.newBalance } ∧
    (true = true →
      (deductCredit true [("s1", 5)] "s1" 1).1.success = false ∧
      (generateProductSchema (Except.ok rawOk) true [("s1", 5)] input1).result =
        Except.ok { schema := rawOk, creditsRemaining := 0 }) :=
  generateProductSchema_ignores_debit_failure (Except.ok rawOk) true [("s1", 5)] input1
    rawOk 5 rfl (by decide) rfl

/-! ## Digest shape lemmas -/

/-- Fixed-width hex rendering always has exactly the requested width. -/
theorem toHexFixed_length (n : Nat) : ∀ w, (toHexFixed n w).length = n := by
  induction n with
  | zero => intro w; rfl
  | succ n ih => intro w; simp [toHexFixed, ih]

/-- A hex digit value below 16 renders to one of the sixteen lowercase
hex characters. -/
theorem hexChar_mem (d : Nat) (h : d < 16) : hexChar d ∈ hexDigits := by
  interval_cases d <;> decide

/-- Every character of a fixed-width hex rendering is a lowercase hex
digit. -/
theorem mem_toHexFixed (n : Nat) : ∀ w c, c ∈ toHexFixed n w → c ∈ hexDigits := by
  induction n with
  | zero => intro w c h; simp [toHexFixed] at h
  | succ n ih =>
    intro w c h
    simp only [toHexFixed, List.mem_append, List.mem_singleton] at h
    rcases h with h | h
    · exact ih _ c h
    · subst h; exact hexChar_mem _ (Nat.mod_lt _ (by omega))

/-- A SHA-256 hex digest has exactly 64 characters. -/
theorem sha256Hex_length (msg : List Nat) : (sha256Hex msg).length = 64 := by
  show ((digList (sha256Words msg)).flatMap (toHexFixed 8)).length = 64
  simp [digList, toHexFixed_length]

/-- Every character of a SHA-256 hex digest is a lowercase hex digit. -/
theorem sha256Hex_chars (msg : List Nat) (c : Char) (h : c ∈ (sha256Hex msg).data) :
    c ∈ hexDigits := by
  have h2 : c ∈ (digList (sha256Words msg)).flatMap (toHexFixed 8) := h
  simp only [digList, List.flatMap_cons, List.flatMap_nil, List.append_nil,
    List.mem_append] at h2
  rcases h2 with h2 | h2 | h2 | h2 | h2 | h2 | h2 | h2 <;> exact mem_toHexFixed 8 _ c h2

/-! ## Injectivity of the canonical serialization -/

/-- `unhex` inverts `hexChar` on digit values. -/
theorem unhex_hexChar (d : Nat) (h : d < 16) : unhex (hexChar d) = d := by
  interval_cases d <;> decide

/-- `scanStrF` undoes `jsonEscape` when the fuel exceeds the escaped
length: scanning the escape of `s` followed by a closing quote and a
remainder recovers `s` and the remainder. -/
theorem scanStrF_jsonEscape (s : List Char) : ∀ (fuel : Nat) (rest : List Char),
    (jsonEscape s).length < fuel →
    scanStrF fuel (jsonEscape s ++ '"' :: rest) = some (s, rest) := by
  induction s with
  | nil =>
    intro fuel rest hf
    rcases fuel with _ | f
    · omega
    · simp [jsonEscape, scanStrF]
  | cons c s ih =>
    intro fuel rest hf
    have hstep : jsonEscape (c :: s) = jsonEscapeChar c ++ jsonEscape s := by
      simp [jsonEscape]
    rw [hstep] at hf ⊢
    rw [List.append_assoc]
    rcases fuel with _ | f
    · omega
    · by_cases h1 : c = '"'
      · subst h1
        have hlen : (jsonEscape s).length < f := by
          simp [jsonEscapeChar, List.length_append] at hf; omega
        have hrec := ih f rest hlen
        simp [jsonEscapeChar, scanStrF, hrec, unescChar]
      · by_cases h2 : c = '\\'
        · subst h2
          have hlen : (jsonEscape s).length < f := by
            simp [jsonEscapeChar, List.length_append] at hf; omega
          have hrec := ih f rest hlen
          simp [jsonEscapeChar, scanStrF, hrec, unescChar]
        · by_cases h3 : c.toNat = 8
          · have hc : Char.ofNat 8 = c := by rw [← h3, Char.ofNat_toNat]
            have hlen : (jsonEscape s).length < f := by
              simp [jsonEscapeChar, h1, h2, h3, List.length_append] at hf; omega
            have hrec := ih f rest hlen
            simp [jsonEscapeChar, h1, h2, h3, scanStrF, hrec, unescChar]
            exact hc
          · by_cases h4 : c.toNat = 9
            · have hc : Char.ofNat 9 = c := by rw [← h4, Char.ofNat_toNat]
              have hlen : (jsonEscape s).length < f := by
                simp [jsonEscapeChar, h1, h2, h3, h4, List.length_append] at hf; omega
              have hrec := ih f rest hlen
              simp [jsonEscapeChar, h1, h2, h3, h4, scanStrF, hrec, unescChar]
              exact hc
            · by_cases h5 : c.toNat = 10
              · have hc : Char.ofNat 10 = c := by rw [← h5, Char.ofNat_toNat]
                have hlen : (jsonEscape s).length < f := by
                  simp [jsonEscapeChar, h1, h2, h3, h4, h5, List.length_append] at hf; omega
                have hrec := ih f rest hlen
                simp [jsonEscapeChar, h1, h2, h3, h4, h5, scanStrF, hrec, unescChar]
                exact hc
              · by_cases h6 : c.toNat = 12
                · have hc : Char.ofNat 12 = c := by rw [← h6, Char.ofNat_toNat]
                  have hlen : (jsonEscape s).length < f := by
                    simp [jsonEscapeChar, h1, h2, h3, h4, h5, h6, List.length_append] at hf
                    omega
                  have hrec := ih f rest hlen
                  simp [jsonEscapeChar, h1, h2, h3, h4, h5, h6, scanStrF, hrec, unescChar]
                  exact hc
                · by_cases h7 : c.toNat = 13
                  · have hc : Char.ofNat 13 = c := by rw [← h7, Char.ofNat_toNat]
                    have hlen : (jsonEscape s).length < f := by
                      simp [jsonEscapeChar, h1, h2, h3, h4, h5, h6, h7,
                        List.length_append] at hf
                      omega
                    have hrec := ih f rest hlen
                    simp [jsonEscapeChar, h1, h2, h3, h4, h5, h6, h7, scanStrF, hrec,
                      unescChar]
                    exact hc
                  · by_cases h8 : c.toNat < 32
                    · have hlen : (jsonEscape s).length < f := by
                        simp [jsonEscapeChar, h1, h2, h3, h4, h5, h6, h7, h8,
                          List.length_append] at hf
                        omega
                      have hrec := ih f rest hlen
                      have hdiv : c.toNat / 16 < 16 := by omega
                      have hmod : c.toNat % 16 < 16 := Nat.mod_lt _ (by omega)
                      simp [jsonEscapeChar, h1, h2, h3, h4, h5, h6, h7, h8, scanStrF, hrec,
                        unhex_hexChar _ hdiv, unhex_hexChar _ hmod, Nat.div_add_mod,
                        Char.ofNat_toNat]
                    · have hlen : (jsonEscape s).length < f := by
                        simp [jsonEscapeChar, h1, h2, h3, h4, h5, h6, h7, h8,
                          List.length_append] at hf
                        omega
                      have hrec := ih f rest hlen
                      simp [jsonEscapeChar, h1, h2, h3, h4, h5, h6, h7, h8, scanStrF, hrec]

/-- `scanStr` undoes `jsonEscape` (the wrapper always has enough fuel). -/
theorem scanStr_jsonEscape (s rest : List Char) :
    scanStr (jsonEscape s ++ '"' :: rest) = some (s, rest) := by
  apply scanStrF_jsonEscape
  simp [List.length_append]

/-- Decoding a canonical object recovers exactly its three field
values. -/
theorem decodeCanon_canonChars (d t v : List Char) :
    decodeCanon (canonChars d t v) = some (d, t, v) := by
  simp only [decodeCanon, canonChars, List.append_assoc, List.drop_left, scanStr_jsonEscape,
    Option.some_bind, Option.map_some']

/-- The canonical serialization is injective in the three field values. -/
theorem canonChars_inj (d t v d2 t2 v2 : List Char)
    (h : canonChars d t v = canonChars d2 t2 v2) : d = d2 ∧ t = t2 ∧ v = v2 := by
  have h1 := decodeCanon_canonChars d t v
  rw [h, decodeCanon_canonChars] at h1
  simp only [Option.some.injEq, Prod.mk.injEq] at h1
  exact ⟨h1.1.symm, h1.2.1.symm, h1.2.2.symm⟩

/-! ## C7: the hash is SHA-256 of the canonical serialization -/

/-- C7: for every product, `generateProductHash` is the SHA-256 hex digest
of the canonical serialization holding exactly the three fields
description, title, vendor in that fixed key order; the digest is a
64-character string of lowercase hex digits; and products with identical
field values (empty strings included) always give the identical
digest. -/
theorem generateProductHash_shape (p : ProductInput) :
    generateProductHash p = sha256Hex (strBytes (canonicalString p)) ∧
    (canonicalString p).data =
      pre1 ++ jsonEscape p.description.data ++ '"' ::
        (mid1 ++ jsonEscape p.title.data ++ '"' ::
          (mid2 ++ jsonEscape p.vendor.data ++ '"' :: ['\x7d'])) ∧
    (generateProductHash p).length = 64 ∧
    (∀ c ∈ (generateProductHash p).data, c ∈ hexDigits) ∧
    (∀ q : ProductInput, p.title = q.title → p.description = q.description →
      p.vendor = q.vendor → generateProductHash p = generateProductHash q) := by
  refine ⟨rfl, rfl, sha256Hex_length _, fun c hc => sha256Hex_chars _ c hc, ?_⟩
  intro q ht hd hv
  simp [generateProductHash, canonicalString, ht, hd, hv]

/-- Witness for C7: a character of the concrete digest of the empty-fields
product is a lowercase hex digit, and setting only price and sku leaves
the digest identical. -/
theorem generateProductHash_shape_witness :
    'd' ∈ hexDigits ∧ generateProductHash emptyProd = generateProductHash emptyProdPriced :=
  ⟨(generateProductHash_shape emptyProd).2.2.2.1 'd' (by decide),
   (generateProductHash_shape emptyProd).2.2.2.2 emptyProdPriced rfl rfl rfl⟩

/-! ## C8: the fingerprint depends on exactly the three fields -/

/-- C8: the fingerprint depends only on (title, description, vendor):
products agreeing on the triple have equal digests whatever their price
and sku; conversely any change to the triple changes the canonical
serialization that is hashed — two products get the same preimage only
if all three fields agree — and at the concrete single-character edits
below the digests themselves differ.  (Universal digest inequality is
collision resistance of SHA-256 and is not provable; the serialization
injectivity plus the concrete digest changes are its checkable
content.) -/
theorem fingerprint_triple_sensitivity :
    (∀ p q : ProductInput, p.title = q.title → p.description = q.description →
      p.vendor = q.vendor → fingerprintOfInput p = fingerprintOfInput q) ∧
    (∀ p q : ProductInput, canonicalString p = canonicalString q →
      p.title = q.title ∧ p.description = q.description ∧ p.vendor = q.vendor) ∧
    fingerprintOfInput prodS ≠ fingerprintOfInput prodST ∧
    fingerprintOfInput prodS ≠ fingerprintOfInput prodSD ∧
    fingerprintOfInput prodS ≠ fingerprintOfInput prodSV := by
  refine ⟨?_, ?_, by decide, by decide, by decide⟩
  · intro p q ht hd hv
    simp [fingerprintOfInput, generateProductHash, canonicalString, ht, hd, hv]
  · intro p q h
    have hdata : canonChars p.description.data p.title.data p.vendor.data =
        canonChars q.description.data q.title.data q.vendor.data :=
      congrArg String.data h
    obtain ⟨hd, ht, hv⟩ := canonChars_inj _ _ _ _ _ _ hdata
    exact ⟨String.ext ht, String.ext hd, String.ext hv⟩

/-- Witness for C8: the triple-only dependence applied to concrete
products differing only in price and sku, and the serialization
injectivity applied at a concrete product. -/
theorem fingerprint_triple_sensitivity_witness :
    fingerprintOfInput prod1 = fingerprintOfInput prod1Priced ∧
    (prod1.title = prod1.title ∧ prod1.description = prod1.description ∧
      prod1.vendor = prod1.vendor) :=
  ⟨fingerprint_triple_sensitivity.1 prod1 prod1Priced rfl rfl rfl,
   fingerprint_triple_sensitivity.2.1 prod1 prod1 rfl⟩

end AiGeo
